import Mathlib

/-!
Shallow embedding of the parameter subsystem of `mavros/mavros/param.py`
(file-format drivers `MavProxyParam`, `MissionPlannerParam`,
`QGroundControlParam`, the `ParamPlugin.ParamDict` cache, and the remote-call
helpers `call_list_parameters`, `call_get_parameters`, `call_set_parameters`,
`ParamPlugin.call_pull`).

Conventions of the embedding:
* Python numeric parameter values are modelled by `PValue`: exact integers for
  `int` and exact rationals for `float` (the tokens exercised here are short
  decimal literals, which `float` represents exactly, so `Rat` is faithful for
  them); `str` stands in for the other `rclpy` parameter kinds that the tagged
  file formats cannot represent.
* Python exceptions are modelled by `PyErr`; `ValueError` is what the spec
  calls `FormatError`, and `ServiceWaitTimeout` is its `ServiceUnavailable`.
* A text file is modelled as its list of lines, without end-of-line
  characters (the `csv` module recognises both CR and LF itself, and the files
  are opened in text mode with universal newlines).
-/

namespace MavrosParam

/-- Model of a Python parameter value: `int`, `float` (exact rational model of
the decimal literals in scope), or a non-numeric kind such as `str`. -/
inductive PValue where
  | int : Int → PValue
  | float : Rat → PValue
  | str : String → PValue
deriving DecidableEq, Repr

/-- Model of the Python exceptions raised by this module.  `valueError` is the
error class the spec calls FormatError; `serviceWaitTimeout` is the
`ServiceWaitTimeout` exception from `mavros.base` (spec: ServiceUnavailable);
`compileError` records a statement that CPython rejects at compile time. -/
inductive PyErr where
  | valueError (msg : String)
  | attributeError (msg : String)
  | typeError (msg : String)
  | indexError (msg : String)
  | compileError (msg : String)
  | serviceWaitTimeout
deriving DecidableEq, Repr

instance exceptDecEq {ε α : Type} [DecidableEq ε] [DecidableEq α] :
    DecidableEq (Except ε α) := fun x y =>
  match x, y with
  | .ok a, .ok b => if h : a = b then isTrue (by rw [h]) else isFalse (by simp [h])
  | .error a, .error b => if h : a = b then isTrue (by rw [h]) else isFalse (by simp [h])
  | .ok _, .error _ => isFalse (by simp)
  | .error _, .ok _ => isFalse (by simp)

/-- Numeric value of a list of decimal digit characters. -/
def digitsVal (ds : List Char) : Nat :=
  ds.foldl (fun a c => 10 * a + (c.toNat - 48)) 0

/-- Whitespace stripping on both ends, as done by the Python builtins
`int`/`float` and by `str.strip()`. -/
def stripChars (cs : List Char) : List Char :=
  ((cs.dropWhile Char.isWhitespace).reverse.dropWhile Char.isWhitespace).reverse

/-- `str.strip()` on a string. -/
def pyStrip (s : String) : String :=
  String.mk (stripChars s.toList)

/-- `s.startswith('#')`: whether the first character is `#`. -/
def startsWithHash (s : String) : Bool :=
  match s.toList with
  | '#' :: _ => true
  | _ => false

/-- Optional leading sign of a Python numeric literal. -/
def pySign : List Char → Int × List Char
  | '+' :: rest => (1, rest)
  | '-' :: rest => (-1, rest)
  | cs => (1, cs)

/-- Model of the Python builtin `int(x)` on a string: surrounding whitespace is
stripped, then an optional sign followed by one or more decimal digits; any
other shape raises `ValueError` (modelled as `none`).  (Digit-group
underscores, unused by parameter files, are not modelled.) -/
def pyInt (x : String) : Option Int :=
  let sd := pySign (stripChars x.toList)
  if sd.2 ≠ [] ∧ sd.2.all Char.isDigit then some (sd.1 * (digitsVal sd.2 : Int))
  else none

/-- Split a character list at the first character satisfying `p`:
returns the part before it and, when found, the part after it. -/
def splitAtFirst (p : Char → Bool) (cs : List Char) : List Char × Option (List Char) :=
  match cs.dropWhile (fun c => ¬ p c) with
  | [] => (cs.takeWhile (fun c => ¬ p c), none)
  | _ :: rest => (cs.takeWhile (fun c => ¬ p c), some rest)

/-- Model of the Python builtin `float(x)` on a string, for the grammar of
finite decimal literals: surrounding whitespace stripped, optional sign,
digits with an optional fractional part (at least one digit overall), and an
optional decimal exponent.  `inf`/`nan` and digit-group underscores, unused by
parameter files, are not modelled.  The parse result is returned as a pair
`(m, e)` denoting the exact value `m / 10 ^ e`. -/
def pyFloatParts (x : String) : Option (Int × Nat) :=
  let sd := pySign (stripChars x.toList)
  let me := splitAtFirst (fun c => c = 'e' ∨ c = 'E') sd.2
  let ifr := splitAtFirst (fun c => c = '.') me.1
  let ip := ifr.1
  let fr := (ifr.2).getD []
  if ip.all Char.isDigit ∧ fr.all Char.isDigit ∧ (ip ≠ [] ∨ fr ≠ []) then
    let m : Int := sd.1 * (digitsVal (ip ++ fr) : Int)
    let e := fr.length
    match me.2 with
    | none => some (m, e)
    | some ecs =>
      let esd := pySign ecs
      if esd.2 ≠ [] ∧ esd.2.all Char.isDigit then
        let ex := digitsVal esd.2
        if esd.1 < 0 then some (m, e + ex)
        else if ex ≤ e then some (m, e - ex)
        else some (m * (10 : Int) ^ (ex - e), 0)
      else none
  else none

/-- The exact rational value of the parsed literal: `m / 10 ^ e`. -/
def pyFloat (x : String) : Option Rat :=
  (pyFloatParts x).map (fun p => ((p.1 : Int) : Rat) / (10 : Rat) ^ p.2)

/-- `to_numeric = lambda x: float(x) if '.' in x else int(x)` — the value
inference shared by `MavProxyParam._parse_param_file` and
`QGroundControlParam._parse_param_file` (spec: `infer`). -/
def to_numeric (x : String) : Except PyErr PValue :=
  if '.' ∈ x.toList then
    match pyFloat x with
    | some q => .ok (.float q)
    | none => .error (.valueError "could not convert string to float")
  else
    match pyInt x with
    | some n => .ok (.int n)
    | none => .error (.valueError "invalid literal for int with base 10")

/-- One record of the CPython `_csv` reader for the dialects used here
(`quoting=QUOTE_NONE`, `doublequote=False`, `skipinitialspace=True`,
default escapechar `None`): fields are separated by `delim`; while at the
start of a field (`atStart`), spaces are skipped before the delimiter test,
which is why runs of spaces collapse under the space-delimited dialect.
`acc` holds the current field, reversed. -/
def csvFieldsGo (delim : Char) : List Char → List Char → Bool → List String
  | [], acc, _ => [String.mk acc.reverse]
  | c :: rest, acc, atStart =>
    if atStart = true ∧ c = ' ' then csvFieldsGo delim rest acc true
    else if c = delim then String.mk acc.reverse :: csvFieldsGo delim rest [] true
    else csvFieldsGo delim rest (c :: acc) false

/-- The record the reader emits for one line: a blank line yields the empty
record `[]` (CPython returns `[]` for an empty line), any other line is split
into its fields (a non-blank line always yields at least one field,
`csvFieldsGo_ne_nil`). -/
def csvReadLine (delim : Char) (line : String) : List String :=
  if line.toList.isEmpty then [] else csvFieldsGo delim line.toList [] true

/-- `csv.reader(file_, dialect)` for the dialects used here: one record per
input line, blank lines included (as empty records). -/
def csvReader (delim : Char) (lines : List String) : List (List String) :=
  lines.map (csvReadLine delim)

example : to_numeric "1.5" = .ok (.float (3 / 2)) := by
  have h1 : to_numeric "1.5" = .ok (.float (((15 : Int) : Rat) / (10 : Rat) ^ (1 : Nat))) := rfl
  have h2 : (((15 : Int) : Rat) / (10 : Rat) ^ (1 : Nat)) = 3 / 2 := by norm_num
  rw [h1, h2]
example : to_numeric "42" = .ok (.int 42) := by decide
example : to_numeric "abc" = .error (.valueError "invalid literal for int with base 10") := by
  decide
example : to_numeric "-17" = .ok (.int (-17)) := by decide
example : pyFloatParts "2.5e2" = some (250, 0) := by decide
example : pyFloatParts "-3.25e-1" = some (-325, 3) := by decide
example : pyFloatParts "1.2.3" = none := by decide
example : csvReadLine ' ' "FOO  1" = ["FOO", "1"] := by decide
example : csvReadLine ',' "FOO, 1" = ["FOO", "1"] := by decide
example : csvReadLine ' ' "a b " = ["a", "b", ""] := by decide
example : csvReadLine ' ' " " = [""] := by decide
example : csvReader ' ' ["A 1", "", "B 2"] = [["A", "1"], [], ["B", "2"]] := by decide

/-- `rclpy.parameter.Parameter` as used here: a name and a value (the rclpy
type tag is determined by the value and is not materialised separately). -/
structure Parameter where
  name : String
  value : PValue
deriving DecidableEq, Repr

/-- A Python `dict` mapping parameter names to `Parameter`s, modelled as an
insertion-ordered association list whose keys are unique. -/
abbrev ParamMap := List (String × Parameter)

/-- `d[k] = v` on a Python dict: overwriting an existing key keeps its
original position, a new key is appended. -/
def dictInsert (d : ParamMap) (k : String) (v : Parameter) : ParamMap :=
  if d.any (fun kv => kv.1 == k) then d.map (fun kv => if kv.1 = k then (k, v) else kv)
  else d ++ [(k, v)]

/-- The dict comprehension in both `load` methods:
`{p.name: p for p in self._parse_param_file(file_)}`. -/
def buildDict (ps : List Parameter) : ParamMap :=
  ps.foldl (fun d p => dictInsert d p.name p) []

/-- `MavProxyParam._parse_param_file`, on the records produced by
`csv.reader`: the comment check reads `data[0]` first, UNGUARDED — on the
empty record of a blank line it raises `IndexError` before anything else; a
record whose first field starts with `#` is skipped; a record with a field
count other than 2 raises `ValueError("wrong field count")`; otherwise the
record yields `Parameter(data[0].strip(), to_numeric(data[1]))`.  The
generator is driven to completion by `load`, so the first exception
propagates.  (The `getD` default for `data[1]` is unreachable: the length
check guards it.) -/
def parseRowsMavProxy : List (List String) → Except PyErr (List Parameter)
  | [] => .ok []
  | data :: rest =>
    match data.head? with
    | none => .error (.indexError "list index out of range")
    | some d0 =>
      if startsWithHash d0 then parseRowsMavProxy rest
      else if data.length ≠ 2 then .error (.valueError "wrong field count")
      else
        match to_numeric (data.getD 1 "") with
        | .error e => .error e
        | .ok v =>
          match parseRowsMavProxy rest with
          | .error e => .error e
          | .ok ps => .ok (⟨pyStrip d0, v⟩ :: ps)

/-- `QGroundControlParam._parse_param_file`: identical shape — the same
unguarded `data[0]` raising `IndexError` on an empty record — but a record
must have exactly 5 fields and yields
`Parameter(data[2].strip(), to_numeric(data[3]))` (the `getD` defaults for
`data[2]`/`data[3]` are unreachable: the length check guards them). -/
def parseRowsQGC : List (List String) → Except PyErr (List Parameter)
  | [] => .ok []
  | data :: rest =>
    match data.head? with
    | none => .error (.indexError "list index out of range")
    | some d0 =>
      if startsWithHash d0 then parseRowsQGC rest
      else if data.length ≠ 5 then .error (.valueError "wrong field count")
      else
        match to_numeric (data.getD 3 "") with
        | .error e => .error e
        | .ok v =>
          match parseRowsQGC rest with
          | .error e => .error e
          | .ok ps => .ok (⟨pyStrip (data.getD 2 ""), v⟩ :: ps)

/-- `MavProxyParam` parsing of a whole file: space-delimited dialect. -/
def parseMavProxy (lines : List String) : Except PyErr (List Parameter) :=
  parseRowsMavProxy (csvReader ' ' lines)

/-- `MissionPlannerParam` inherits `_parse_param_file` and `load` from
`MavProxyParam`; only the dialect delimiter differs (comma). -/
def parseMissionPlanner (lines : List String) : Except PyErr (List Parameter) :=
  parseRowsMavProxy (csvReader ',' lines)

/-- `QGroundControlParam` parsing of a whole file: tab-delimited dialect. -/
def parseQGC (lines : List String) : Except PyErr (List Parameter) :=
  parseRowsQGC (csvReader '\t' lines)

/-- The state of a `ParamFile` object: `parameters` (a dict or `None`),
`stamp` (modelled as the already-formatted timestamp string or `None`), and
the target ids (class defaults 1, 1). -/
structure ParamFileState where
  parameters : Option ParamMap := none
  stamp : Option String := none
  tgt_system : Int := 1
  tgt_component : Int := 1
deriving DecidableEq, Repr

/-- `MavProxyParam.load`: on success the `parameters` attribute is assigned
the freshly built dict; if the comprehension raises, the exception propagates
before the assignment, so the object is left unchanged (second component is
the escaped exception, if any). -/
def loadMavProxy (st : ParamFileState) (lines : List String) :
    ParamFileState × Option PyErr :=
  match parseMavProxy lines with
  | .ok ps => ({ st with parameters := some (buildDict ps) }, none)
  | .error e => (st, some e)

/-- `MissionPlannerParam.load` (inherited `load`, comma dialect). -/
def loadMissionPlanner (st : ParamFileState) (lines : List String) :
    ParamFileState × Option PyErr :=
  match parseMissionPlanner lines with
  | .ok ps => ({ st with parameters := some (buildDict ps) }, none)
  | .error e => (st, some e)

/-- `QGroundControlParam.load`. -/
def loadQGC (st : ParamFileState) (lines : List String) :
    ParamFileState × Option PyErr :=
  match parseQGC lines with
  | .ok ps => ({ st with parameters := some (buildDict ps) }, none)
  | .error e => (st, some e)

/-- `MavProxyParam.save`: after defaulting the stamp it executes
`file_.writerow((f"#NOTE: ...", ))` — but `file_` is the text file object,
which has no `writerow` method (that method belongs to the `csv.writer`
constructed on the previous line), so an `AttributeError` is raised before
any output is produced and the data loop is never reached.  (That loop has a
second slip: `for p in self.parameters` iterates the dict keys — strings —
and `p.name` on a string would also raise `AttributeError`.)  Result: updated
object state, the rows actually written, and the escaped exception. -/
def saveMavProxy (st : ParamFileState) (now : String) :
    ParamFileState × List (List String) × Option PyErr :=
  let st1 := if st.stamp = none then { st with stamp := some now } else st
  (st1, [], some (.attributeError "_io.TextIOWrapper object has no attribute writerow"))

/-- `MissionPlannerParam` inherits `save` from `MavProxyParam`; the dialect
difference (comma delimiter) only affects the csv writer, which is never
reached. -/
def saveMissionPlanner (st : ParamFileState) (now : String) :
    ParamFileState × List (List String) × Option PyErr :=
  saveMavProxy st now

/-- `to_type` inside `QGroundControlParam.save`: a float maps to the REAL32
tag 9, an int to the INT32 tag 6.  For any other value kind the code attempts
`raise ValueError(f"unknown type: {type(x):r}")`, but `r` is not a valid
format code for `type.__format__`, so building the message itself raises
`TypeError`; either way the operation fails on a non-numeric value. -/
def to_type : PValue → Except PyErr Int
  | .float _ => .ok 9
  | .int _ => .ok 6
  | .str _ => .error (.typeError "unsupported format string passed to type.__format__")

/-- The three header rows written by `QGroundControlParam.save`: the
timestamped note, the provenance note naming the target pair, and the
column-label row. -/
def qgcHeaderRows (st : ParamFileState) : List (List String) :=
  [ ["# NOTE: " ++ (st.stamp).getD ""]
  , ["# Onboard parameters saved by mavparam for (" ++ toString st.tgt_system
      ++ "." ++ toString st.tgt_component ++ ")"]
  , ["# MAV ID", "COMPONENT ID", "PARAM NAME", "VALUE", "(TYPE)"] ]

/-- `QGroundControlParam.save`: defaults the stamp, writes the three header
rows through the csv writer, then runs `for p in self.parameters: ...`.
Iterating a dict yields its keys (strings), so on the first iteration
`p.name` raises `AttributeError` and no data row is ever written; if
`parameters` is still `None`, the `for` itself raises `TypeError`.  Only an
empty dict lets `save` finish, with just the three header rows. -/
def saveQGC (st : ParamFileState) (now : String) :
    ParamFileState × List (List String) × Option PyErr :=
  let st1 := if st.stamp = none then { st with stamp := some now } else st
  let headers := qgcHeaderRows st1
  match st1.parameters with
  | none => (st1, headers, some (.typeError "NoneType object is not iterable"))
  | some d =>
    if d.isEmpty then (st1, headers, none)
    else (st1, headers, some (.attributeError "str object has no attribute name"))

/-- The module-level default readiness timeout: `TIMEOUT = 5.0` seconds. -/
def TIMEOUT : Rat := 5

/-- The default of the `ParamPlugin.timeout_sec` attribute: `5.0` seconds,
used by `call_pull`. -/
def paramPlugin_timeout_sec : Rat := 5

/-- `rcl_interfaces.msg.Parameter` as built by `p.to_parameter_msg()`. -/
structure ParameterMsgM where
  name : String
  value : PValue
deriving DecidableEq, Repr

/-- `Parameter.to_parameter_msg` of rclpy: the wire form of a parameter. -/
def Parameter.to_parameter_msg (p : Parameter) : ParameterMsgM :=
  ⟨p.name, p.value⟩

/-- `ListParameters.Request`. -/
structure ListRequest where
  prefixes : List String
deriving DecidableEq, Repr

/-- The `result.names` part of `ListParameters.Response`. -/
structure ListResponse where
  names : List String
deriving DecidableEq, Repr

/-- `GetParameters.Request`. -/
structure GetRequest where
  names : List String
deriving DecidableEq, Repr

/-- `GetParameters.Response`. -/
structure GetResponse where
  values : List PValue
deriving DecidableEq, Repr

/-- `SetParameters.Request`. -/
structure SetRequest where
  parameters : List ParameterMsgM
deriving DecidableEq, Repr

/-- `rcl_interfaces.msg.SetParametersResult`. -/
structure SetResult where
  successful : Bool
  reason : String
deriving DecidableEq, Repr

/-- `SetParameters.Response`. -/
structure SetResponse where
  results : List SetResult
deriving DecidableEq, Repr

/-- `ParamPull.Request`. -/
structure PullRequest where
  force_pull : Bool
deriving DecidableEq, Repr

/-- `ParamPull.Response` (`mavros_msgs/srv/ParamPull`): a success flag and the
number of parameters received — the response does not carry the parameters
themselves. -/
structure PullResponse where
  success : Bool
  param_received : Nat
deriving DecidableEq, Repr

/-- `call_list_parameters`: `client.wait_for_service(timeout_sec=TIMEOUT)` is
modelled by the oracle `wait` applied to the timeout actually passed; on
`False` the helper raises `ServiceWaitTimeout` without building or sending a
request, otherwise it sends the one request built from `prefixes` and returns
`resp.result.names`.  The second component lists the requests sent. -/
def call_list_parameters (wait : Rat → Bool) (prefixes : List String)
    (service : ListRequest → ListResponse) :
    Except PyErr (List String) × List ListRequest :=
  if wait TIMEOUT then
    let req : ListRequest := ⟨prefixes⟩
    (.ok (service req).names, [req])
  else (.error .serviceWaitTimeout, [])

/-- `call_get_parameters`: same template; on success returns
`dict(zip(names, resp.values))`. -/
def call_get_parameters (wait : Rat → Bool) (names : List String)
    (service : GetRequest → GetResponse) :
    Except PyErr (List (String × PValue)) × List GetRequest :=
  if wait TIMEOUT then
    let req : GetRequest := ⟨names⟩
    (.ok (names.zip (service req).values), [req])
  else (.error .serviceWaitTimeout, [])

/-- `call_set_parameters`: same template; the request carries
`[p.to_parameter_msg() for p in parameters]` and the result is
`dict(zip((p.name for p in parameters), resp.results))`. -/
def call_set_parameters (wait : Rat → Bool) (parameters : List Parameter)
    (service : SetRequest → SetResponse) :
    Except PyErr (List (String × SetResult)) × List SetRequest :=
  if wait TIMEOUT then
    let req : SetRequest := ⟨parameters.map Parameter.to_parameter_msg⟩
    (.ok ((parameters.map (fun p => p.name)).zip (service req).results), [req])
  else (.error .serviceWaitTimeout, [])

/-- The mutable state of a `ParamPlugin` relevant here: the `_parameters`
cache (`None` until the `param` property is first accessed, then the
`ParamDict` mapping). -/
structure PluginState where
  parameters : Option ParamMap
deriving DecidableEq, Repr

/-- `ParamPlugin.call_pull`: waits on the pull client with
`timeout_sec=self.timeout_sec`, raising `ServiceWaitTimeout` when not ready;
otherwise builds the one request from `force_pull`, sends it and returns the
response.  The method reads only the client and the logger: the local
`_parameters` mapping is passed through untouched in every branch. -/
def call_pull (wait : Rat → Bool) (timeout_sec : Rat) (force_pull : Bool)
    (service : PullRequest → PullResponse) (st : PluginState) :
    Except PyErr PullResponse × List PullRequest × PluginState :=
  if wait timeout_sec then
    let req : PullRequest := ⟨force_pull⟩
    (.ok (service req), [req], st)
  else (.error .serviceWaitTimeout, [], st)

/-- `parameter_from_parameter_value`: wraps a name and a wire value into a
`Parameter` (via `ParameterMsg` and `Parameter.from_parameter_msg`). -/
def parameter_from_parameter_value (name : String) (pv : PValue) : Parameter :=
  ⟨name, pv⟩

/-- The mapping update performed by `ParamDict.__setitem__`
(`self.data[key] = value`): a plain dict store of the given `Parameter` under
the given key — the subsequent remote-set call does not touch the mapping. -/
def paramDict_setData (data : ParamMap) (key : String) (value : Parameter) : ParamMap :=
  dictInsert data key value

/-- `ParamDict.__setitem__` in full: it stores the value and then attempts
`call_set_parameters(node=self._pm._node, client=self._pm.set_parameters,
[value])`.  That call expression places a positional argument after keyword
arguments, which CPython rejects when compiling the module
(`SyntaxError: positional argument follows keyword argument`); and even read
as an intended positional argument, `parameters` is keyword-only in
`call_set_parameters`, so the list could never reach it.  The failure is
modelled at the offending statement: no set request is ever issued.  Returns
the mapping after the store, the set requests sent, and the failure. -/
def paramDict_setitem (data : ParamMap) (key : String) (value : Parameter) :
    ParamMap × List SetRequest × Option PyErr :=
  (paramDict_setData data key value,
   [],
   some (.compileError "positional argument follows keyword argument"))

/-- `ParamDict._event_handler`: `self.data[msg.param_id] =
parameter_from_parameter_value(msg.param_id, msg.value)` — an unconditional
per-name overwrite of the cache entry. -/
def paramDict_event_handler (data : ParamMap) (param_id : String) (value : PValue) :
    ParamMap :=
  dictInsert data param_id (parameter_from_parameter_value param_id value)

/-- The store invariant of the spec: every key of the mapping equals the
`name` of the `Parameter` stored under it. -/
def keysMatch (d : ParamMap) : Bool :=
  d.all (fun kv => kv.1 == kv.2.name)

/-- Number of entries of the mapping stored under the key `n`. -/
def countKey (d : ParamMap) (n : String) : Nat :=
  d.countP (fun kv => kv.1 == n)

/-- Python `d[n]` on the association-list dict model: the first (and, for
dicts built by the operations here, only) entry stored under `n`. -/
def dictLookup (n : String) : ParamMap → Option Parameter
  | [] => none
  | (k, v) :: t => if n = k then some v else dictLookup n t

/-! Supporting lemmas about the csv reader and the dict model. -/

lemma csvFieldsGo_ne_nil (delim : Char) (cs : List Char) :
    ∀ (acc : List Char) (b : Bool), csvFieldsGo delim cs acc b ≠ [] := by
  induction cs with
  | nil => intro acc b; simp [csvFieldsGo]
  | cons c rest ih =>
    intro acc b
    simp only [csvFieldsGo]
    split
    · exact ih acc true
    · split
      · simp
      · exact ih (c :: acc) false

lemma dictLookup_append (n : String) (l₁ l₂ : ParamMap) :
    dictLookup n (l₁ ++ l₂) =
      match dictLookup n l₁ with
      | some v => some v
      | none => dictLookup n l₂ := by
  induction l₁ with
  | nil => simp [dictLookup]
  | cons a t ih =>
    obtain ⟨k, v⟩ := a
    by_cases h : n = k
    · simp [dictLookup, h]
    · simp only [List.cons_append, dictLookup, if_neg h]
      exact ih

lemma dictLookup_mapReplace_ne (d : ParamMap) (k n : String) (v : Parameter) (h : n ≠ k) :
    dictLookup n (d.map (fun kv => if kv.1 = k then (k, v) else kv)) =
      dictLookup n d := by
  induction d with
  | nil => simp [dictLookup]
  | cons a t ih =>
    obtain ⟨ak, av⟩ := a
    rw [List.map_cons]
    by_cases hak : ak = k
    · rw [if_pos hak]
      simp only [dictLookup]
      rw [if_neg h, if_neg (hak ▸ h)]
      exact ih
    · rw [if_neg hak]
      simp only [dictLookup]
      by_cases hna : n = ak
      · rw [if_pos hna, if_pos hna]
      · rw [if_neg hna, if_neg hna]
        exact ih

lemma dictLookup_mapReplace_eq (d : ParamMap) (k : String) (v : Parameter) :
    dictLookup k (d.map (fun kv => if kv.1 = k then (k, v) else kv)) =
      if d.any (fun kv => kv.1 == k) then some v else none := by
  induction d with
  | nil => simp [dictLookup]
  | cons a t ih =>
    obtain ⟨ak, av⟩ := a
    rw [List.map_cons, List.any_cons]
    by_cases hak : ak = k
    · rw [if_pos hak]
      simp only [dictLookup, if_pos rfl]
      simp [hak]
    · rw [if_neg hak]
      simp only [dictLookup, if_neg (fun h : k = ak => hak h.symm)]
      rw [ih, beq_eq_false_iff_ne.mpr hak, Bool.false_or]

lemma dictLookup_eq_none_of_not_any (d : ParamMap) (k : String)
    (h : d.any (fun kv => kv.1 == k) = false) : dictLookup k d = none := by
  induction d with
  | nil => simp [dictLookup]
  | cons a t ih =>
    obtain ⟨ak, av⟩ := a
    rw [List.any_cons] at h
    obtain ⟨h1, h2⟩ := Bool.or_eq_false_iff.mp h
    have hk : ¬ k = ak := fun he => by simp [he] at h1
    simp only [dictLookup, if_neg hk]
    exact ih h2

lemma dictLookup_dictInsert (d : ParamMap) (k n : String) (v : Parameter) :
    dictLookup n (dictInsert d k v) = if n = k then some v else dictLookup n d := by
  unfold dictInsert
  split
  case isTrue hany =>
    by_cases h : n = k
    · subst h; rw [dictLookup_mapReplace_eq, if_pos hany, if_pos rfl]
    · rw [dictLookup_mapReplace_ne d k n v h, if_neg h]
  case isFalse hany =>
    rw [dictLookup_append]
    by_cases h : n = k
    · subst h
      rw [dictLookup_eq_none_of_not_any d n (Bool.eq_false_iff.mpr hany)]
      simp [dictLookup]
    · cases hl : dictLookup n d with
      | some p => simp [hl, if_neg h]
      | none => simp [hl, dictLookup, if_neg h]

lemma find?_append {α : Type} (p : α → Bool) (l₁ l₂ : List α) :
    List.find? p (l₁ ++ l₂) =
      match List.find? p l₁ with
      | some a => some a
      | none => List.find? p l₂ := by
  induction l₁ with
  | nil => simp
  | cons a t ih =>
    by_cases h : p a
    · simp [List.find?, h]
    · simp only [List.cons_append, List.find?, Bool.not_eq_true] at *
      rw [h]
      exact ih

lemma dictLookup_foldl_dictInsert (n : String) (ps : List Parameter) :
    ∀ d : ParamMap,
      dictLookup n (ps.foldl (fun d p => dictInsert d p.name p) d) =
        match ps.reverse.find? (fun p => p.name == n) with
        | some q => some q
        | none => dictLookup n d := by
  induction ps with
  | nil => intro d; simp
  | cons p ps ih =>
    intro d
    simp only [List.foldl_cons, List.reverse_cons]
    rw [ih, find?_append]
    cases hf : ps.reverse.find? (fun p => p.name == n) with
    | some q => simp
    | none =>
      rw [dictLookup_dictInsert]
      by_cases h : p.name = n
      · simp [List.find?, h]
      · have hn : ¬ n = p.name := fun he => h he.symm
        simp [List.find?, beq_eq_false_iff_ne.mpr h, hn]

lemma dictLookup_buildDict (ps : List Parameter) (n : String) :
    dictLookup n (buildDict ps) = ps.reverse.find? (fun p => p.name == n) := by
  rw [buildDict, dictLookup_foldl_dictInsert]
  cases ps.reverse.find? (fun p => p.name == n) <;> simp [dictLookup]

lemma countKey_mapReplace (d : ParamMap) (k n : String) (v : Parameter) :
    countKey (d.map (fun kv => if kv.1 = k then (k, v) else kv)) n = countKey d n := by
  unfold countKey
  rw [List.countP_map]
  apply List.countP_congr
  intro kv _
  by_cases h : kv.1 = k
  · simp [Function.comp, h]
  · simp [Function.comp, h]

lemma countKey_dictInsert_le_one (d : ParamMap) (k : String) (v : Parameter)
    (h : ∀ m, countKey d m ≤ 1) : ∀ m, countKey (dictInsert d k v) m ≤ 1 := by
  intro m
  unfold dictInsert
  split
  case isTrue hany => rw [countKey_mapReplace]; exact h m
  case isFalse hany =>
    unfold countKey at *
    rw [List.countP_append]
    by_cases hm : k = m
    · subst hm
      have hz : d.countP (fun kv => kv.1 == k) = 0 := by
        rw [List.countP_eq_zero]
        intro a ha hk
        exact hany (List.any_eq_true.mpr ⟨a, ha, hk⟩)
      simp [hz, List.countP_cons]
    · have : List.countP (fun kv => kv.1 == m) [(k, v)] = 0 := by
        simp [List.countP_cons, beq_eq_false_iff_ne.mpr hm]
      rw [this]
      simpa using h m

lemma countKey_buildDict_le_one (ps : List Parameter) :
    ∀ m, countKey (buildDict ps) m ≤ 1 := by
  have main : ∀ (qs : List Parameter) (d : ParamMap), (∀ m, countKey d m ≤ 1) →
      ∀ m, countKey (qs.foldl (fun d p => dictInsert d p.name p) d) m ≤ 1 := by
    intro qs
    induction qs with
    | nil => intro d hd m; exact hd m
    | cons p ps ih =>
      intro d hd m
      exact ih (dictInsert d p.name p) (countKey_dictInsert_le_one d p.name p hd) m
  exact main ps [] (fun m => by simp [countKey])

lemma to_numeric_cases (x : String) :
    (∃ v, to_numeric x = .ok v) ∨ (∃ m, to_numeric x = .error (.valueError m)) := by
  unfold to_numeric
  split
  · cases pyFloat x with
    | none => exact Or.inr ⟨_, rfl⟩
    | some q => exact Or.inl ⟨_, rfl⟩
  · cases pyInt x with
    | none => exact Or.inr ⟨_, rfl⟩
    | some n => exact Or.inl ⟨_, rfl⟩

lemma parseRowsMavProxy_error_of_badrow (rows : List (List String))
    (h : ∃ data ∈ rows, startsWithHash (data.headD "") = false ∧ data.length ≠ 2) :
    ∃ e, parseRowsMavProxy rows = .error e := by
  induction rows with
  | nil => simp at h
  | cons data rest ih =>
    obtain ⟨d0r, hmem, hd0⟩ := h
    cases data with
    | nil => exact ⟨.indexError "list index out of range", rfl⟩
    | cons f tl =>
      simp only [parseRowsMavProxy, List.head?_cons]
      rcases List.mem_cons.mp hmem with heq | hmem2
      · subst heq
        simp only [List.headD_cons] at hd0
        rw [if_neg (by rw [hd0.1]; simp), if_pos hd0.2]
        exact ⟨.valueError "wrong field count", rfl⟩
      · by_cases hc : startsWithHash f = true
        · rw [if_pos hc]
          exact ih ⟨d0r, hmem2, hd0⟩
        · rw [if_neg hc]
          by_cases hl : (f :: tl).length ≠ 2
          · rw [if_pos hl]
            exact ⟨.valueError "wrong field count", rfl⟩
          · rw [if_neg hl]
            obtain ⟨e, hrec⟩ := ih ⟨d0r, hmem2, hd0⟩
            rcases to_numeric_cases ((f :: tl).getD 1 "") with ⟨v, hv⟩ | ⟨m2, hm⟩
            · exact ⟨e, by rw [hv, hrec]⟩
            · exact ⟨.valueError m2, by rw [hm]⟩

lemma parseRowsMavProxy_valueError_of_badrow (rows : List (List String))
    (h : ∃ data ∈ rows, startsWithHash (data.headD "") = false ∧ data.length ≠ 2)
    (hne : ∀ r ∈ rows, r ≠ []) :
    ∃ m, parseRowsMavProxy rows = .error (.valueError m) := by
  induction rows with
  | nil => simp at h
  | cons data rest ih =>
    obtain ⟨d0r, hmem, hd0⟩ := h
    cases data with
    | nil => exact absurd rfl (hne [] (List.mem_cons_self _ _))
    | cons f tl =>
      simp only [parseRowsMavProxy, List.head?_cons]
      rcases List.mem_cons.mp hmem with heq | hmem2
      · subst heq
        simp only [List.headD_cons] at hd0
        rw [if_neg (by rw [hd0.1]; simp), if_pos hd0.2]
        exact ⟨"wrong field count", rfl⟩
      · have hne2 : ∀ r ∈ rest, r ≠ [] := fun r hr => hne r (List.mem_cons_of_mem _ hr)
        by_cases hc : startsWithHash f = true
        · rw [if_pos hc]
          exact ih ⟨d0r, hmem2, hd0⟩ hne2
        · rw [if_neg hc]
          by_cases hl : (f :: tl).length ≠ 2
          · rw [if_pos hl]
            exact ⟨"wrong field count", rfl⟩
          · rw [if_neg hl]
            obtain ⟨m, hrec⟩ := ih ⟨d0r, hmem2, hd0⟩ hne2
            rcases to_numeric_cases ((f :: tl).getD 1 "") with ⟨v, hv⟩ | ⟨m2, hm⟩
            · exact ⟨m, by rw [hv, hrec]⟩
            · exact ⟨m2, by rw [hm]⟩

lemma parseRowsQGC_error_of_badrow (rows : List (List String))
    (h : ∃ data ∈ rows, startsWithHash (data.headD "") = false ∧ data.length ≠ 5) :
    ∃ e, parseRowsQGC rows = .error e := by
  induction rows with
  | nil => simp at h
  | cons data rest ih =>
    obtain ⟨d0r, hmem, hd0⟩ := h
    cases data with
    | nil => exact ⟨.indexError "list index out of range", rfl⟩
    | cons f tl =>
      simp only [parseRowsQGC, List.head?_cons]
      rcases List.mem_cons.mp hmem with heq | hmem2
      · subst heq
        simp only [List.headD_cons] at hd0
        rw [if_neg (by rw [hd0.1]; simp), if_pos hd0.2]
        exact ⟨.valueError "wrong field count", rfl⟩
      · by_cases hc : startsWithHash f = true
        · rw [if_pos hc]
          exact ih ⟨d0r, hmem2, hd0⟩
        · rw [if_neg hc]
          by_cases hl : (f :: tl).length ≠ 5
          · rw [if_pos hl]
            exact ⟨.valueError "wrong field count", rfl⟩
          · rw [if_neg hl]
            obtain ⟨e, hrec⟩ := ih ⟨d0r, hmem2, hd0⟩
            rcases to_numeric_cases ((f :: tl).getD 3 "") with ⟨v, hv⟩ | ⟨m2, hm⟩
            · exact ⟨e, by rw [hv, hrec]⟩
            · exact ⟨.valueError m2, by rw [hm]⟩

lemma parseRowsQGC_valueError_of_badrow (rows : List (List String))
    (h : ∃ data ∈ rows, startsWithHash (data.headD "") = false ∧ data.length ≠ 5)
    (hne : ∀ r ∈ rows, r ≠ []) :
    ∃ m, parseRowsQGC rows = .error (.valueError m) := by
  induction rows with
  | nil => simp at h
  | cons data rest ih =>
    obtain ⟨d0r, hmem, hd0⟩ := h
    cases data with
    | nil => exact absurd rfl (hne [] (List.mem_cons_self _ _))
    | cons f tl =>
      simp only [parseRowsQGC, List.head?_cons]
      rcases List.mem_cons.mp hmem with heq | hmem2
      · subst heq
        simp only [List.headD_cons] at hd0
        rw [if_neg (by rw [hd0.1]; simp), if_pos hd0.2]
        exact ⟨"wrong field count", rfl⟩
      · have hne2 : ∀ r ∈ rest, r ≠ [] := fun r hr => hne r (List.mem_cons_of_mem _ hr)
        by_cases hc : startsWithHash f = true
        · rw [if_pos hc]
          exact ih ⟨d0r, hmem2, hd0⟩ hne2
        · rw [if_neg hc]
          by_cases hl : (f :: tl).length ≠ 5
          · rw [if_pos hl]
            exact ⟨"wrong field count", rfl⟩
          · rw [if_neg hl]
            obtain ⟨m, hrec⟩ := ih ⟨d0r, hmem2, hd0⟩ hne2
            rcases to_numeric_cases ((f :: tl).getD 3 "") with ⟨v, hv⟩ | ⟨m2, hm⟩
            · exact ⟨m, by rw [hv, hrec]⟩
            · exact ⟨m2, by rw [hm]⟩

lemma parseRowsMavProxy_append (l1 l2 : List (List String)) :
    parseRowsMavProxy (l1 ++ l2) =
      match parseRowsMavProxy l1 with
      | .error e => .error e
      | .ok ps1 =>
        match parseRowsMavProxy l2 with
        | .error e => .error e
        | .ok ps2 => .ok (ps1 ++ ps2) := by
  induction l1 with
  | nil =>
    simp only [List.nil_append, parseRowsMavProxy]
    cases parseRowsMavProxy l2 <;> simp
  | cons data rest ih =>
    cases data with
    | nil => rfl
    | cons f tl =>
      simp only [List.cons_append, parseRowsMavProxy, List.head?_cons, List.append_eq]
      by_cases hc : startsWithHash f = true
      · rw [if_pos hc, if_pos hc]
        exact ih
      · rw [if_neg hc, if_neg hc]
        by_cases hl : (f :: tl).length ≠ 2
        · rw [if_pos hl, if_pos hl]
        · rw [if_neg hl, if_neg hl]
          cases to_numeric ((f :: tl).getD 1 "") with
          | error e => rfl
          | ok v =>
            rw [ih]
            cases parseRowsMavProxy rest with
            | error e => rfl
            | ok ps1 =>
              cases parseRowsMavProxy l2 with
              | error e => rfl
              | ok ps2 => simp

lemma parseRowsQGC_append (l1 l2 : List (List String)) :
    parseRowsQGC (l1 ++ l2) =
      match parseRowsQGC l1 with
      | .error e => .error e
      | .ok ps1 =>
        match parseRowsQGC l2 with
        | .error e => .error e
        | .ok ps2 => .ok (ps1 ++ ps2) := by
  induction l1 with
  | nil =>
    simp only [List.nil_append, parseRowsQGC]
    cases parseRowsQGC l2 <;> simp
  | cons data rest ih =>
    cases data with
    | nil => rfl
    | cons f tl =>
      simp only [List.cons_append, parseRowsQGC, List.head?_cons, List.append_eq]
      by_cases hc : startsWithHash f = true
      · rw [if_pos hc, if_pos hc]
        exact ih
      · rw [if_neg hc, if_neg hc]
        by_cases hl : (f :: tl).length ≠ 5
        · rw [if_pos hl, if_pos hl]
        · rw [if_neg hl, if_neg hl]
          cases to_numeric ((f :: tl).getD 3 "") with
          | error e => rfl
          | ok v =>
            rw [ih]
            cases parseRowsQGC rest with
            | error e => rfl
            | ok ps1 =>
              cases parseRowsQGC l2 with
              | error e => rfl
              | ok ps2 => simp

lemma keysMatch_dictInsert (d : ParamMap) (k : String) (v : Parameter)
    (hd : keysMatch d = true) (hk : k = v.name) : keysMatch (dictInsert d k v) = true := by
  unfold keysMatch dictInsert at *
  rw [List.all_eq_true] at hd
  split
  · rw [List.all_eq_true]
    intro kv hkv
    obtain ⟨a, ha, rfl⟩ := List.mem_map.mp hkv
    by_cases h : a.1 = k
    · rw [if_pos h]
      simp [hk]
    · rw [if_neg h]
      exact hd a ha
  · rw [List.all_eq_true]
    intro kv hkv
    rcases List.mem_append.mp hkv with h | h
    · exact hd kv h
    · simp only [List.mem_singleton] at h
      subst h
      simp [hk]

lemma countKey_pos_of_dictLookup_some (d : ParamMap) (n : String) (p : Parameter)
    (h : dictLookup n d = some p) : 1 ≤ countKey d n := by
  induction d with
  | nil => simp [dictLookup] at h
  | cons a t ih =>
    obtain ⟨ak, av⟩ := a
    unfold countKey
    rw [List.countP_cons]
    by_cases hn : n = ak
    · simp [hn]
    · simp only [dictLookup, if_neg hn] at h
      have := ih h
      unfold countKey at this
      omega

lemma exists_match_of_two_filter (ps : List Parameter) (n : String)
    (h2 : 2 ≤ (ps.filter (fun p => p.name == n)).length) :
    ∃ x ∈ ps, (x.name == n) = true := by
  have hne : ps.filter (fun p => p.name == n) ≠ [] := by
    intro h
    rw [h] at h2
    simp at h2
  obtain ⟨x, hx⟩ := List.exists_mem_of_ne_nil _ hne
  have hm := List.mem_filter.mp hx
  exact ⟨x, hm.1, hm.2⟩

lemma buildDict_core (ps : List Parameter) (n : String)
    (hex : ∃ x ∈ ps, (x.name == n) = true) :
    countKey (buildDict ps) n = 1 ∧
    dictLookup n (buildDict ps) = ps.reverse.find? (fun p => p.name == n) := by
  have hlk := dictLookup_buildDict ps n
  obtain ⟨x, hx, hpx⟩ := hex
  have hs : (ps.reverse.find? (fun p => p.name == n)).isSome := by
    rw [List.find?_isSome]
    exact ⟨x, List.mem_reverse.mpr hx, hpx⟩
  obtain ⟨q, hq⟩ := Option.isSome_iff_exists.mp hs
  refine ⟨le_antisymm (countKey_buildDict_le_one ps n) ?_, hlk⟩
  exact countKey_pos_of_dictLookup_some _ n q (by rw [hlk, hq])

/-- Claim C7: for every token, the shared value-inference `to_numeric`
(spec: `infer`) parses the token as a float exactly when it contains a
decimal point and as a signed integer otherwise, raising `ValueError`
(FormatError) when the chosen parse fails; concretely,
`infer("1.5") == 1.5` as a float, `infer("42") == 42` as an integer, and
`infer("abc")` fails with FormatError. -/
theorem c7_infer_dispatch :
    (∀ x : String,
      (('.' ∈ x.toList) →
        ((∃ q, pyFloat x = some q ∧ to_numeric x = .ok (.float q)) ∨
         (pyFloat x = none ∧ ∃ m, to_numeric x = .error (.valueError m)))) ∧
      (('.' ∉ x.toList) →
        ((∃ n, pyInt x = some n ∧ to_numeric x = .ok (.int n)) ∨
         (pyInt x = none ∧ ∃ m, to_numeric x = .error (.valueError m))))) ∧
    to_numeric "1.5" = .ok (.float (3 / 2)) ∧
    to_numeric "42" = .ok (.int 42) ∧
    (∃ m, to_numeric "abc" = .error (.valueError m)) := by
  refine ⟨fun x => ⟨fun hdot => ?_, fun hnodot => ?_⟩, ?_, by decide,
    ⟨"invalid literal for int with base 10", by decide⟩⟩
  · unfold to_numeric
    rw [if_pos hdot]
    cases hf : pyFloat x with
    | some q => exact Or.inl ⟨q, rfl, rfl⟩
    | none => exact Or.inr ⟨rfl, _, rfl⟩
  · unfold to_numeric
    rw [if_neg hnodot]
    cases hi : pyInt x with
    | some n => exact Or.inl ⟨n, rfl, rfl⟩
    | none => exact Or.inr ⟨rfl, _, rfl⟩
  · have h1 : to_numeric "1.5" =
        .ok (.float (((1 : Int) * ((15 : Nat) : Int) : Int) / (10 : Rat) ^ (1 : Nat))) := rfl
    have h2 : (((1 : Int) * ((15 : Nat) : Int) : Int) / (10 : Rat) ^ (1 : Nat) : Rat)
        = 3 / 2 := by norm_num
    rw [h1, h2]

/-- Witness for C7 at the token `1.5`. -/
theorem c7_infer_dispatch_witness :
    (∃ q, pyFloat "1.5" = some q ∧ to_numeric "1.5" = .ok (.float q)) ∨
    (pyFloat "1.5" = none ∧ ∃ m, to_numeric "1.5" = .error (.valueError m)) :=
  (c7_infer_dispatch.1 "1.5").1 (by decide)

/-- Claim C10: a zero-field record — as produced by a blank line, for which
the csv reader emits the empty record `[]` — makes the parse fail with
`IndexError` rather than `ValueError` (FormatError): the comment check reads
`data[0]` before the field-count check runs, and that first-field access is
unguarded.  Stated at the row level (a zero-field record fails the parse the
moment it is processed, whatever follows) and at the text level for all three
variants (whenever the lines before a blank line parse cleanly, the whole
parse fails with `IndexError` at the blank line). -/
theorem c10_zero_field_row_index_error :
    (∀ rest, parseRowsMavProxy ([] :: rest) =
      .error (.indexError "list index out of range")) ∧
    (∀ rest, parseRowsQGC ([] :: rest) =
      .error (.indexError "list index out of range")) ∧
    (∀ (pre post : List String) (ps : List Parameter),
      (parseMavProxy pre = .ok ps →
        parseMavProxy (pre ++ "" :: post) =
          .error (.indexError "list index out of range")) ∧
      (parseMissionPlanner pre = .ok ps →
        parseMissionPlanner (pre ++ "" :: post) =
          .error (.indexError "list index out of range")) ∧
      (parseQGC pre = .ok ps →
        parseQGC (pre ++ "" :: post) =
          .error (.indexError "list index out of range"))) := by
  refine ⟨fun rest => rfl, fun rest => rfl, fun pre post ps => ⟨?_, ?_, ?_⟩⟩
  · intro hp
    unfold parseMavProxy csvReader at hp ⊢
    rw [List.map_append, List.map_cons, parseRowsMavProxy_append, hp]
    rfl
  · intro hp
    unfold parseMissionPlanner csvReader at hp ⊢
    rw [List.map_append, List.map_cons, parseRowsMavProxy_append, hp]
    rfl
  · intro hp
    unfold parseQGC csvReader at hp ⊢
    rw [List.map_append, List.map_cons, parseRowsQGC_append, hp]
    rfl

/-- Witness for C10 at a concrete file with a blank line between data rows. -/
theorem c10_zero_field_row_index_error_witness :
    parseMavProxy ["FOO 1", "", "BAR 2"] =
      .error (.indexError "list index out of range") :=
  (c10_zero_field_row_index_error.2.2 ["FOO 1"] ["BAR 2"]
    [⟨"FOO", PValue.int 1⟩]).1 (by decide)

/-- Claim C9 counterexample: the input `["FOO 1", "", "FOO 2"]` carries two
valid data rows named `FOO`, yet `load` does not succeed — the blank line
between them yields a zero-field record and the parse raises `IndexError`,
failing the whole load. -/
theorem c9_counterexample :
    (loadMavProxy ⟨none, none, 1, 1⟩ ["FOO 1", "", "FOO 2"]).2 =
      some (.indexError "list index out of range") ∧
    (loadMavProxy ⟨none, none, 1, 1⟩ ["FOO 1", "", "FOO 2"]).1.parameters = none := by
  decide

/-- Claim C9 (amended): whenever the parse succeeds — in particular when the
input has no blank lines and every row is well formed — a name carried by two
or more data rows ends up with exactly one entry in the mapping, holding the
value of the last such row in file order (the dict comprehension lets later
rows overwrite earlier ones) — for all three file-format variants. -/
theorem c9_duplicate_last_wins :
    ∀ (st : ParamFileState) (lines : List String) (ps : List Parameter) (n : String),
      ((parseMavProxy lines = .ok ps ∧ 2 ≤ (ps.filter (fun p => p.name == n)).length) →
        (loadMavProxy st lines).2 = none ∧
        ∃ d, (loadMavProxy st lines).1.parameters = some d ∧
          countKey d n = 1 ∧
          dictLookup n d = ps.reverse.find? (fun p => p.name == n)) ∧
      ((parseMissionPlanner lines = .ok ps ∧
          2 ≤ (ps.filter (fun p => p.name == n)).length) →
        (loadMissionPlanner st lines).2 = none ∧
        ∃ d, (loadMissionPlanner st lines).1.parameters = some d ∧
          countKey d n = 1 ∧
          dictLookup n d = ps.reverse.find? (fun p => p.name == n)) ∧
      ((parseQGC lines = .ok ps ∧ 2 ≤ (ps.filter (fun p => p.name == n)).length) →
        (loadQGC st lines).2 = none ∧
        ∃ d, (loadQGC st lines).1.parameters = some d ∧
          countKey d n = 1 ∧
          dictLookup n d = ps.reverse.find? (fun p => p.name == n)) := by
  intro st lines ps n
  refine ⟨fun ⟨hp, h2⟩ => ?_, fun ⟨hp, h2⟩ => ?_, fun ⟨hp, h2⟩ => ?_⟩
  · unfold loadMavProxy
    rw [hp]
    exact ⟨rfl, buildDict ps, rfl,
      buildDict_core ps n (exists_match_of_two_filter ps n h2)⟩
  · unfold loadMissionPlanner
    rw [hp]
    exact ⟨rfl, buildDict ps, rfl,
      buildDict_core ps n (exists_match_of_two_filter ps n h2)⟩
  · unfold loadQGC
    rw [hp]
    exact ⟨rfl, buildDict ps, rfl,
      buildDict_core ps n (exists_match_of_two_filter ps n h2)⟩

/-- Witness for C9 at a two-row space-delimited file repeating `FOO`. -/
theorem c9_duplicate_last_wins_witness :
    (loadMavProxy ⟨none, none, 1, 1⟩ ["FOO 1", "FOO 2"]).2 = none ∧
    ∃ d, (loadMavProxy ⟨none, none, 1, 1⟩ ["FOO 1", "FOO 2"]).1.parameters = some d ∧
      countKey d "FOO" = 1 ∧
      dictLookup "FOO" d =
        ([⟨"FOO", PValue.int 1⟩, ⟨"FOO", PValue.int 2⟩] :
          List Parameter).reverse.find? (fun p => p.name == "FOO") :=
  (c9_duplicate_last_wins ⟨none, none, 1, 1⟩ ["FOO 1", "FOO 2"]
    [⟨"FOO", PValue.int 1⟩, ⟨"FOO", PValue.int 2⟩] "FOO").1 ⟨by decide, by decide⟩

/-- Claim C5 counterexample: the input `["", "FOO 1 2"]` contains a
non-comment record with the wrong field count (3), yet the load fails with
`IndexError` — raised by the unguarded `data[0]` on the blank line's empty
record — not with `ValueError` (FormatError) as the claim states. -/
theorem c5_counterexample :
    (∃ row ∈ csvReader ' ' ["", "FOO 1 2"],
      startsWithHash (row.headD "") = false ∧ row.length ≠ 2) ∧
    (loadMavProxy ⟨none, none, 1, 1⟩ ["", "FOO 1 2"]).2 =
      some (.indexError "list index out of range") := by
  decide

/-- Claim C5 (amended): a non-comment record with the wrong field count
(2 for the space- and comma-delimited variants, 5 for the tab-delimited one)
makes the whole load fail, and the failure is always atomic: the exception
escapes before the `parameters` assignment, so the file object is unchanged
and no parameters from prior valid rows are retained.  The error is
`ValueError` (FormatError) whenever every record of the input is nonempty —
in particular whenever the input has no blank lines; a blank line's
zero-field record instead fails earlier with `IndexError`. -/
theorem c5_wrong_field_count_atomic :
    ∀ (st : ParamFileState) (lines : List String),
      ((∃ row ∈ csvReader ' ' lines,
          startsWithHash (row.headD "") = false ∧ row.length ≠ 2) →
        ((loadMavProxy st lines).2.isSome ∧ (loadMavProxy st lines).1 = st) ∧
        ((∀ r ∈ csvReader ' ' lines, r ≠ []) →
          ∃ m, (loadMavProxy st lines).2 = some (.valueError m))) ∧
      ((∃ row ∈ csvReader ',' lines,
          startsWithHash (row.headD "") = false ∧ row.length ≠ 2) →
        ((loadMissionPlanner st lines).2.isSome ∧
          (loadMissionPlanner st lines).1 = st) ∧
        ((∀ r ∈ csvReader ',' lines, r ≠ []) →
          ∃ m, (loadMissionPlanner st lines).2 = some (.valueError m))) ∧
      ((∃ row ∈ csvReader '\t' lines,
          startsWithHash (row.headD "") = false ∧ row.length ≠ 5) →
        ((loadQGC st lines).2.isSome ∧ (loadQGC st lines).1 = st) ∧
        ((∀ r ∈ csvReader '\t' lines, r ≠ []) →
          ∃ m, (loadQGC st lines).2 = some (.valueError m))) := by
  intro st lines
  refine ⟨fun h => ⟨?_, fun hne => ?_⟩, fun h => ⟨?_, fun hne => ?_⟩,
    fun h => ⟨?_, fun hne => ?_⟩⟩
  · obtain ⟨e, hm⟩ := parseRowsMavProxy_error_of_badrow (csvReader ' ' lines) h
    unfold loadMavProxy parseMavProxy
    rw [hm]
    exact ⟨rfl, rfl⟩
  · obtain ⟨m, hm⟩ := parseRowsMavProxy_valueError_of_badrow (csvReader ' ' lines) h hne
    unfold loadMavProxy parseMavProxy
    rw [hm]
    exact ⟨m, rfl⟩
  · obtain ⟨e, hm⟩ := parseRowsMavProxy_error_of_badrow (csvReader ',' lines) h
    unfold loadMissionPlanner parseMissionPlanner
    rw [hm]
    exact ⟨rfl, rfl⟩
  · obtain ⟨m, hm⟩ := parseRowsMavProxy_valueError_of_badrow (csvReader ',' lines) h hne
    unfold loadMissionPlanner parseMissionPlanner
    rw [hm]
    exact ⟨m, rfl⟩
  · obtain ⟨e, hm⟩ := parseRowsQGC_error_of_badrow (csvReader '\t' lines) h
    unfold loadQGC parseQGC
    rw [hm]
    exact ⟨rfl, rfl⟩
  · obtain ⟨m, hm⟩ := parseRowsQGC_valueError_of_badrow (csvReader '\t' lines) h hne
    unfold loadQGC parseQGC
    rw [hm]
    exact ⟨m, rfl⟩

/-- Witness for C5 (amended) at a three-field space-delimited row with no
blank lines. -/
theorem c5_wrong_field_count_atomic_witness :
    ((loadMavProxy ⟨none, none, 1, 1⟩ ["FOO 1 2"]).2.isSome ∧
      (loadMavProxy ⟨none, none, 1, 1⟩ ["FOO 1 2"]).1 = ⟨none, none, 1, 1⟩) ∧
    (∃ m, (loadMavProxy ⟨none, none, 1, 1⟩ ["FOO 1 2"]).2 = some (.valueError m)) :=
  ⟨((c5_wrong_field_count_atomic ⟨none, none, 1, 1⟩ ["FOO 1 2"]).1 (by decide)).1,
   ((c5_wrong_field_count_atomic ⟨none, none, 1, 1⟩ ["FOO 1 2"]).1 (by decide)).2
     (by decide)⟩

/-- Claim C1: the claimed render/parse round-trip cannot hold — rendering
crashes before producing any text.  `MavProxyParam.save` (inherited unchanged
by `MissionPlannerParam`) calls `writerow` on the text file object, which has
no such method, so `AttributeError` is raised with nothing written; there is
no rendered text to parse back. -/
theorem c1_roundtrip_render_crashes :
    (saveMavProxy ⟨some [("FOO", ⟨"FOO", PValue.int 3⟩)], some "01.01.2020 00:00:00", 1, 1⟩
        "01.01.2020 00:00:00").2.1 = [] ∧
    (saveMavProxy ⟨some [("FOO", ⟨"FOO", PValue.int 3⟩)], some "01.01.2020 00:00:00", 1, 1⟩
        "01.01.2020 00:00:00").2.2 =
      some (.attributeError "_io.TextIOWrapper object has no attribute writerow") ∧
    (saveMissionPlanner ⟨some [("FOO", ⟨"FOO", PValue.int 3⟩)], some "01.01.2020 00:00:00", 1, 1⟩
        "01.01.2020 00:00:00").2.1 = [] ∧
    (saveMissionPlanner ⟨some [("FOO", ⟨"FOO", PValue.int 3⟩)], some "01.01.2020 00:00:00", 1, 1⟩
        "01.01.2020 00:00:00").2.2 =
      some (.attributeError "_io.TextIOWrapper object has no attribute writerow") := by
  decide

/-- Claim C6: the tab-delimited render writes its three header rows and then
crashes — the data loop iterates the dict keys (strings), so `p.name` raises
`AttributeError` and the claimed data row `1\t1\tFOO\t3\t6` is never emitted.
(`to_type` itself does map an int to 6 and a float to 9, and fails on any
other kind.) -/
theorem c6_qgc_render_crashes_after_headers :
    (saveQGC ⟨some [("FOO", ⟨"FOO", PValue.int 3⟩)], some "01.01.2020 00:00:00", 1, 1⟩
        "01.01.2020 00:00:00").2.1 =
      [["# NOTE: 01.01.2020 00:00:00"],
       ["# Onboard parameters saved by mavparam for (1.1)"],
       ["# MAV ID", "COMPONENT ID", "PARAM NAME", "VALUE", "(TYPE)"]] ∧
    (saveQGC ⟨some [("FOO", ⟨"FOO", PValue.int 3⟩)], some "01.01.2020 00:00:00", 1, 1⟩
        "01.01.2020 00:00:00").2.2 =
      some (.attributeError "str object has no attribute name") ∧
    ["1", "1", "FOO", "3", "6"] ∉
      (saveQGC ⟨some [("FOO", ⟨"FOO", PValue.int 3⟩)], some "01.01.2020 00:00:00", 1, 1⟩
        "01.01.2020 00:00:00").2.1 ∧
    to_type (PValue.int 3) = .ok 6 ∧
    to_type (PValue.float (3 / 2)) = .ok 9 ∧
    (∃ m, to_type (PValue.str "x") = .error (.typeError m)) := by
  refine ⟨by decide, by decide, by decide, rfl, rfl,
    ⟨"unsupported format string passed to type.__format__", rfl⟩⟩

/-- Claim C4: `ParamDict.__setitem__` never issues the remote set request —
the call `call_set_parameters(node=..., client=..., [value])` places a
positional argument after keyword arguments, which CPython rejects outright,
so no request carrying the changed parameter is ever sent. -/
theorem c4_setitem_sends_no_request :
    (paramDict_setitem [] "A" ⟨"A", PValue.int 5⟩).1 = [("A", ⟨"A", PValue.int 5⟩)] ∧
    (paramDict_setitem [] "A" ⟨"A", PValue.int 5⟩).2.1 = [] ∧
    (paramDict_setitem [] "A" ⟨"A", PValue.int 5⟩).2.2 =
      some (.compileError "positional argument follows keyword argument") := by
  decide

/-- Claim C3 counterexample: `__setitem__` stores the given `Parameter` under
the given key unconditionally, so a single set with a key different from the
parameter name breaks the key-equals-name invariant. -/
theorem c3_counterexample :
    keysMatch [] = true ∧
    keysMatch (paramDict_setData [] "A" ⟨"B", PValue.int 2⟩) = false := by
  decide

/-- Claim C3 (amended): the event handler preserves the key-equals-name
invariant unconditionally; `__setitem__` preserves it provided the key equals
the stored parameter's name — under that proviso every reachable state keeps
the invariant. -/
theorem c3_invariant_preservation :
    ∀ (d : ParamMap) (k : String) (v : Parameter) (pid : String) (pv : PValue),
      (keysMatch d = true → k = v.name → keysMatch (paramDict_setData d k v) = true) ∧
      (keysMatch d = true → keysMatch (paramDict_event_handler d pid pv) = true) := by
  intro d k v pid pv
  constructor
  · intro hd hk
    exact keysMatch_dictInsert d k v hd hk
  · intro hd
    exact keysMatch_dictInsert d pid ⟨pid, pv⟩ hd rfl

/-- Witness for C3 (amended) at concrete store operations. -/
theorem c3_invariant_preservation_witness :
    keysMatch (paramDict_setData [] "A" ⟨"A", PValue.int 1⟩) = true ∧
    keysMatch (paramDict_event_handler [] "B" (PValue.int 2)) = true :=
  ⟨(c3_invariant_preservation [] "A" ⟨"A", PValue.int 1⟩ "B" (PValue.int 2)).1
      (by decide) rfl,
   (c3_invariant_preservation [] "A" ⟨"A", PValue.int 1⟩ "B" (PValue.int 2)).2
      (by decide)⟩

/-- Claim C2 counterexample: with the cache holding `A ↦ 1`, a successful
pull (the service reports success) leaves the mapping exactly as it was —
still `A ↦ 1`, with no entry under `B` — instead of replacing it with the
fetched set. -/
theorem c2_counterexample :
    ((call_pull (fun _ => true) paramPlugin_timeout_sec false (fun _ => ⟨true, 1⟩)
        ⟨some [("A", ⟨"A", PValue.int 1⟩)]⟩).2.2).parameters =
      some [("A", ⟨"A", PValue.int 1⟩)] ∧
    (call_pull (fun _ => true) paramPlugin_timeout_sec false (fun _ => ⟨true, 1⟩)
        ⟨some [("A", ⟨"A", PValue.int 1⟩)]⟩).1 = .ok ⟨true, 1⟩ ∧
    dictLookup "B" [("A", ⟨"A", PValue.int 1⟩)] = none := by
  decide

/-- Claim C2 (amended): `call_pull` only issues the request and returns the
response — it never modifies the local mapping; the fetched parameters arrive
through the change-event subscription, whose handler overwrites one entry per
event and never removes entries absent from the fetched set, so pull-driven
resynchronization merges into, rather than replaces, the mapping. -/
theorem c2_pull_leaves_mapping :
    ∀ (wait : Rat → Bool) (t : Rat) (force : Bool)
      (service : PullRequest → PullResponse) (st : PluginState),
      (call_pull wait t force service st).2.2 = st ∧
      ∀ (d : ParamMap) (pid : String) (pv : PValue) (k : String), k ≠ pid →
        dictLookup k (paramDict_event_handler d pid pv) = dictLookup k d := by
  intro wait t force service st
  constructor
  · unfold call_pull
    split <;> rfl
  · intro d pid pv k hk
    unfold paramDict_event_handler
    rw [dictLookup_dictInsert, if_neg hk]

/-- Witness for C2 (amended) at a concrete pull and event. -/
theorem c2_pull_leaves_mapping_witness :
    (call_pull (fun _ => false) paramPlugin_timeout_sec false (fun _ => ⟨false, 0⟩)
      ⟨none⟩).2.2 = ⟨none⟩ ∧
    dictLookup "A" (paramDict_event_handler [] "B" (PValue.int 2)) =
      dictLookup "A" ([] : ParamMap) :=
  ⟨(c2_pull_leaves_mapping (fun _ => false) paramPlugin_timeout_sec false
      (fun _ => ⟨false, 0⟩) ⟨none⟩).1,
   (c2_pull_leaves_mapping (fun _ => false) paramPlugin_timeout_sec false
      (fun _ => ⟨false, 0⟩) ⟨none⟩).2 [] "B" (PValue.int 2) "A" (by decide)⟩

/-- Claim C8: every remote-call helper waits on service readiness with the
5-second default timeout (`TIMEOUT` for the module-level helpers,
`timeout_sec` for `call_pull`), fails with `ServiceWaitTimeout`
(ServiceUnavailable) exactly when that wait reports failure, and sends no
request in that case. -/
theorem c8_ready_timeout :
    TIMEOUT = 5 ∧ paramPlugin_timeout_sec = 5 ∧
    ∀ (wait : Rat → Bool) (prefixes names : List String) (params : List Parameter)
      (force : Bool) (lsvc : ListRequest → ListResponse)
      (gsvc : GetRequest → GetResponse) (ssvc : SetRequest → SetResponse)
      (psvc : PullRequest → PullResponse) (st : PluginState),
      (((call_list_parameters wait prefixes lsvc).1 = .error .serviceWaitTimeout) ↔
        wait TIMEOUT = false) ∧
      (wait TIMEOUT = false → (call_list_parameters wait prefixes lsvc).2 = []) ∧
      (((call_get_parameters wait names gsvc).1 = .error .serviceWaitTimeout) ↔
        wait TIMEOUT = false) ∧
      (wait TIMEOUT = false → (call_get_parameters wait names gsvc).2 = []) ∧
      (((call_set_parameters wait params ssvc).1 = .error .serviceWaitTimeout) ↔
        wait TIMEOUT = false) ∧
      (wait TIMEOUT = false → (call_set_parameters wait params ssvc).2 = []) ∧
      (((call_pull wait paramPlugin_timeout_sec force psvc st).1 =
          .error .serviceWaitTimeout) ↔ wait paramPlugin_timeout_sec = false) ∧
      (wait paramPlugin_timeout_sec = false →
        (call_pull wait paramPlugin_timeout_sec force psvc st).2.1 = []) := by
  refine ⟨rfl, rfl, ?_⟩
  intro wait prefixes names params force lsvc gsvc ssvc psvc st
  refine ⟨?_, ?_, ?_, ?_, ?_, ?_, ?_, ?_⟩
  · cases h : wait TIMEOUT <;> simp [call_list_parameters, h]
  · cases h : wait TIMEOUT <;> simp [call_list_parameters, h]
  · cases h : wait TIMEOUT <;> simp [call_get_parameters, h]
  · cases h : wait TIMEOUT <;> simp [call_get_parameters, h]
  · cases h : wait TIMEOUT <;> simp [call_set_parameters, h]
  · cases h : wait TIMEOUT <;> simp [call_set_parameters, h]
  · cases h : wait paramPlugin_timeout_sec <;> simp [call_pull, h]
  · cases h : wait paramPlugin_timeout_sec <;> simp [call_pull, h]

/-- Witness for C8 with a never-ready endpoint. -/
theorem c8_ready_timeout_witness :
    (call_list_parameters (fun _ => false) [] (fun _ => ⟨[]⟩)).2 = [] ∧
    (call_pull (fun _ => false) paramPlugin_timeout_sec true (fun _ => ⟨true, 0⟩)
      ⟨none⟩).2.1 = [] := by
  have h := c8_ready_timeout.2.2 (fun _ => false) [] [] [] true (fun _ => ⟨[]⟩)
    (fun _ => ⟨[]⟩) (fun _ => ⟨[]⟩) (fun _ => ⟨true, 0⟩) ⟨none⟩
  exact ⟨h.2.1 rfl, h.2.2.2.2.2.2.2 rfl⟩

end MavrosParam
